import Mathlib

/-!
Verification of the ModularSensors sensor-lifecycle specification against the
repository's source files (`RainCounterI2C.cpp`, `DecagonCTD.h`,
`AtlasScientificpH.h`).  The generic lifecycle core (`Sensor`, `Variable`,
the measurement timer) is not among the source files, so those parts are
modelled from the specification text; every such definition is marked
`Modelled from the spec:` in its doc comment.  Everything else is a shallow
embedding of the C++ source: machine integers become `Nat`/`Int` with explicit
wrapping, `float` values that only ever hold exactly representable quantities
are modelled as rationals, and the I2C transaction is modelled by its
observable result.
-/

namespace ModularSensors

/-- Modulus of the unsigned 32-bit `millis()` timestamp counter. -/
def UINT32_MOD : Nat := 2 ^ 32

/-- Unsigned 32-bit subtraction `a - b` with wraparound, the semantics of
`uint32_t` subtraction used for elapsed-time computation. -/
def usub32 (a b : Nat) : Nat :=
  (a % UINT32_MOD + (UINT32_MOD - b % UINT32_MOD)) % UINT32_MOD

/-- Modelled from the spec: `MeasurementTimer.hasElapsed(startTimestamp,
requiredDuration, now)` (the MeasurementTimer component is not among the
source files).  Returns true iff `startTimestamp` is set (not the "unset"
sentinel, modelled as `none`) and `now - startTimestamp >= requiredDuration`
under unsigned modular subtraction. -/
def hasElapsed (startTimestamp : Option Nat) (requiredDuration now : Nat) : Bool :=
  match startTimestamp with
  | none => false
  | some t => requiredDuration ≤ usub32 now t

/-- The universal failure sentinel −9999 ("no valid reading").  Raw readings,
averaged results and failed variable reads all use this value. -/
def FAILURE_SENTINEL : ℚ := -9999

/-- Modelled from the spec: the rain counter produces two output variables
(rain and tip count; RainCounterI2C.cpp lines 76–77).  The header declaring
the index constants is not among the source files; the concrete index values
are immaterial to the claims, only their distinctness matters. -/
def BUCKET_NUM_VARIABLES : Nat := 2

/-- Modelled from the spec: output index of the rain (mm) variable. -/
def BUCKET_RAIN_VAR_NUM : Nat := 0

/-- Modelled from the spec: output index of the tip-count variable. -/
def BUCKET_TIPS_VAR_NUM : Nat := 1

/-- State of a `RainCounterI2C` sensor object: the fields of the C++ object
that `RainCounterI2C.cpp` reads or writes.  `float` fields are modelled as
rationals (the values stored are exactly representable), `uint8_t` and
`uint32_t` fields as `Nat`. -/
structure RainCounterState where
  i2cAddressHex : Nat
  rainPerTip : ℚ
  sensorStatus : Nat
  millisMeasurementRequested : Nat
  sensorValues : List ℚ
  numberGoodMeasurementsMade : List Nat
deriving Repr, DecidableEq

/-- Conversion of a C `int` value in `[0, 65535]` to `int16_t`
(two's-complement wrap), as happens in the assignment
`tips = (Byte2 << 8) | (Byte1)` at RainCounterI2C.cpp line 61. -/
def toInt16 (n : Nat) : Int :=
  if n % 2 ^ 16 < 2 ^ 15 then (n % 2 ^ 16 : Int) else (n % 2 ^ 16 : Int) - 2 ^ 16

/-- Modelled from the spec: `Sensor::verifyAndAddMeasurementResult`
(the generic `Sensor` implementation is not among the source files).  Each
index's raw reading either succeeds — added into `values[index]`, success
counter incremented — or fails (equals the failure sentinel) and contributes
nothing, without poisoning the other indices. -/
def verifyAndAddMeasurementResult (s : RainCounterState) (resultNumber : Nat)
    (resultValue : ℚ) : RainCounterState :=
  if resultValue = FAILURE_SENTINEL then s
  else
    { s with
      sensorValues :=
        s.sensorValues.set resultNumber
          (s.sensorValues.getD resultNumber 0 + resultValue),
      numberGoodMeasurementsMade :=
        s.numberGoodMeasurementsMade.set resultNumber
          (s.numberGoodMeasurementsMade.getD resultNumber 0 + 1) }

/-- The local computation of the `(rain, tips)` raw readings inside
`RainCounterI2C::addSingleMeasurementResult` (RainCounterI2C.cpp lines
49–74).  The I2C transaction is modelled by its observable result: `none`
when `Wire.requestFrom` returned 0 (no bytes received), `some (byte1, byte2)`
for the low and high bytes read.  Both locals are initialised to −9999 and
only overwritten when bytes were received; a negative tip count or rain
amount is clamped to −9999. -/
def rainTipsRawReadings (resp : Option (Nat × Nat)) (rainPerTip : ℚ) :
    ℚ × Int :=
  match resp with
  | none => (-9999, -9999)
  | some (byte1, byte2) =>
      let tips0 : Int := toInt16 ((byte2 <<< 8) ||| byte1)
      let rain0 : ℚ := (tips0 : ℚ) * rainPerTip
      ((if rain0 < 0 then -9999 else rain0), (if tips0 < 0 then -9999 else tips0))

/-- Shallow embedding of `RainCounterI2C::addSingleMeasurementResult`
(RainCounterI2C.cpp lines 48–86): compute the raw rain and tips readings,
hand each to `verifyAndAddMeasurementResult` at its output index, unset the
measurement-request timestamp, clear status bits 5 and 6, and return true. -/
def addSingleMeasurementResult (resp : Option (Nat × Nat))
    (s : RainCounterState) : Bool × RainCounterState :=
  let rt := rainTipsRawReadings resp s.rainPerTip
  let s1 := verifyAndAddMeasurementResult s BUCKET_RAIN_VAR_NUM rt.1
  let s2 := verifyAndAddMeasurementResult s1 BUCKET_TIPS_VAR_NUM (rt.2 : ℚ)
  (true,
   { s2 with
     millisMeasurementRequested := 0,
     sensorStatus := s2.sensorStatus &&& 0b10011111 })

/-- Lowercase hexadecimal digit character for a digit value below 16, as
produced by the Arduino `utoa` conversion behind `String(value, HEX)`. -/
def hexDigitChar (d : Nat) : Char :=
  if d < 10 then Char.ofNat (48 + d) else Char.ofNat (87 + d)

/-- Numeric value of a lowercase hexadecimal digit character. -/
def hexCharVal (c : Char) : Nat :=
  if c.toNat ≤ 57 then c.toNat - 48 else c.toNat - 87

/-- Semantic model of Arduino `String(value, HEX)`: the minimal lowercase
hexadecimal representation of the value, `"0"` for zero. -/
def stringHex (n : Nat) : String :=
  if n = 0 then "0" else ⟨((Nat.digits 16 n).map hexDigitChar).reverse⟩

/-- Interpretation of a most-significant-digit-first character list as a
base-16 numeral. -/
def hexCharsToNat (cs : List Char) : Nat :=
  cs.foldl (fun acc c => acc * 16 + hexCharVal c) 0

/-- Shallow embedding of `RainCounterI2C::getSensorLocation`
(RainCounterI2C.cpp lines 27–31): builds `"I2C_0x"` followed by the
hexadecimal address; the state is returned unchanged (the method only reads
`_i2cAddressHex`). -/
def getSensorLocation (s : RainCounterState) : String × RainCounterState :=
  ("I2C_0x" ++ stringHex s.i2cAddressHex, s)

/-- `CTD_NUM_VARIABLES` (DecagonCTD.h line 61): the CTD reports 3 values. -/
def CTD_NUM_VARIABLES : Nat := 3

/-- `CTD_WARM_UP_TIME_MS` (DecagonCTD.h line 70). -/
def CTD_WARM_UP_TIME_MS : Nat := 500

/-- `CTD_STABILIZATION_TIME_MS` (DecagonCTD.h line 73). -/
def CTD_STABILIZATION_TIME_MS : Nat := 0

/-- `CTD_MEASUREMENT_TIME_MS` (DecagonCTD.h line 75). -/
def CTD_MEASUREMENT_TIME_MS : Nat := 500

/-- `CTD_COND_RESOLUTION` (DecagonCTD.h line 92). -/
def CTD_COND_RESOLUTION : Nat := 1

/-- `CTD_COND_VAR_NUM` (DecagonCTD.h line 94): conductivity is stored in
`sensorValues[2]`. -/
def CTD_COND_VAR_NUM : Nat := 2

/-- `CTD_COND_VAR_NAME` (DecagonCTD.h line 96). -/
def CTD_COND_VAR_NAME : String := "specificConductance"

/-- `CTD_COND_UNIT_NAME` (DecagonCTD.h line 98). -/
def CTD_COND_UNIT_NAME : String := "microsiemenPerCentimeter"

/-- `CTD_COND_DEFAULT_CODE` (DecagonCTD.h line 100). -/
def CTD_COND_DEFAULT_CODE : String := "CTDcond"

/-- Modelled from the spec: the per-sensor timing configuration handed to
the `Sensor` base constructor (warm-up, stabilization and measurement
durations in milliseconds, plus the averaging target). -/
structure SensorTimingConfig where
  warmUpTime : Nat
  stabilizationTime : Nat
  measurementTime : Nat
  measurementsToAverage : Nat
deriving Repr, DecidableEq

/-- The timing configuration of a `DecagonCTD` constructed with the default
`measurementsToAverage = 1` (DecagonCTD.h lines 187–191). -/
def ctdConfig : SensorTimingConfig :=
  { warmUpTime := CTD_WARM_UP_TIME_MS,
    stabilizationTime := CTD_STABILIZATION_TIME_MS,
    measurementTime := CTD_MEASUREMENT_TIME_MS,
    measurementsToAverage := 1 }

/-- Modelled from the spec: the cycle state of the generic sensor lifecycle
(the `Sensor` base class is not among the source files), restricted to one
output index. -/
structure LifecycleState where
  powered : Bool
  measurementStartTime : Option Nat
  measurementRequested : Bool
  measurementComplete : Bool
  valueSum : ℚ
  goodCount : Nat
deriving Repr, DecidableEq

/-- Modelled from the spec: a freshly constructed sensor — idle, timestamp
unset, accumulators reset. -/
def initialLifecycleState : LifecycleState :=
  { powered := false, measurementStartTime := none,
    measurementRequested := false, measurementComplete := false,
    valueSum := 0, goodCount := 0 }

/-- Modelled from the spec: `powerUp()` enables the power pin and sets
`Powered`; no timestamp is recorded yet. -/
def powerUp (s : LifecycleState) : LifecycleState := { s with powered := true }

/-- Modelled from the spec: a successful `wake()` arms
`measurementStartTime = now`. -/
def wake (now : Nat) (s : LifecycleState) : LifecycleState :=
  { s with measurementStartTime := some now }

/-- Modelled from the spec: `isWarmedUp()` delegates to the measurement
timer against `warmUpTime`. -/
def isWarmedUp (cfg : SensorTimingConfig) (now : Nat) (s : LifecycleState) : Bool :=
  hasElapsed s.measurementStartTime cfg.warmUpTime now

/-- Modelled from the spec: a successful `startSingleMeasurement()` rearms
`measurementStartTime = now` for the measurement window, sets
`MeasurementRequested` and clears any prior `MeasurementComplete`. -/
def startSingleMeasurement (now : Nat) (s : LifecycleState) : LifecycleState :=
  { s with measurementStartTime := some now, measurementRequested := true,
           measurementComplete := false }

/-- Modelled from the spec: `isMeasurementComplete()` gates against
`measurementTime`, evaluated only while the request flag is set. -/
def isMeasurementComplete (cfg : SensorTimingConfig) (now : Nat)
    (s : LifecycleState) : Bool :=
  s.measurementRequested && hasElapsed s.measurementStartTime cfg.measurementTime now

/-- Modelled from the spec: the generic `addSingleMeasurementResult()` on
one output index — a successful raw reading is added into the accumulator
and the success counter incremented, a failed one (the sentinel) contributes
nothing; `MeasurementRequested` and the timestamp are cleared regardless of
success and `MeasurementComplete` is set for this round. -/
def lifecycleAddResult (raw : ℚ) (s : LifecycleState) : LifecycleState :=
  { s with
    valueSum := if raw = FAILURE_SENTINEL then s.valueSum else s.valueSum + raw,
    goodCount := if raw = FAILURE_SENTINEL then s.goodCount else s.goodCount + 1,
    measurementRequested := false,
    measurementStartTime := none,
    measurementComplete := true }

/-- Modelled from the spec: final result per index = accumulated sum /
achieved success count, or the failure sentinel when the count is 0. -/
def lifecycleFinal (s : LifecycleState) : ℚ :=
  if s.goodCount = 0 then FAILURE_SENTINEL else s.valueSum / s.goodCount

/-- Modelled from the spec: all the cycle's averaging rounds at one output
index, each round's collected raw reading fed to the generic
`addSingleMeasurementResult()` step. -/
def runAveragingRounds (raws : List ℚ) (s : LifecycleState) : LifecycleState :=
  raws.foldl (fun st v => lifecycleAddResult v st) s

/-- Modelled from the spec: the final value one output index reports after
its averaging rounds, starting from reset accumulators. -/
def finalIndexValue (raws : List ℚ) : ℚ :=
  lifecycleFinal (runAveragingRounds raws initialLifecycleState)

/-- Bit index of the `Errored` status flag (bit 7 of the status bitmask). -/
def ERROR_BIT : Nat := 7

/-- Modelled from the spec: end-of-cycle result finalisation across all
output indices — each index's final value is its accumulated sum divided by
its achieved success count, or the failure sentinel when that count is 0, in
which case `Errored` is set; sibling indices are computed independently. -/
def averageAndFlag (values : List ℚ) (counts : List Nat) (status : Nat) :
    List ℚ × Nat :=
  (List.zipWith
    (fun (v : ℚ) (n : Nat) => if n = 0 then FAILURE_SENTINEL else v / (n : ℚ))
    values counts,
   if 0 ∈ counts then status ||| 2 ^ ERROR_BIT else status)

/-- Modelled from the spec: `powerDown()` clears all cycle flags back to
`Idle`; the values are kept (accumulators reset only at the start of the
next cycle) so the last completed result stays readable. -/
def powerDown (values : List ℚ) (_status : Nat) : List ℚ × Nat := (values, 0)

/-- Modelled from the spec: the result of `Variable::value()` — the
unbound-usage fault is signalled distinctly from any numeric reading. -/
inductive VariableValue where
  | unboundFault : VariableValue
  | reading : ℚ → VariableValue
deriving Repr, DecidableEq

/-- A `Variable` object: metadata plus an optional binding to the parent
sensor's values array (`none` = default-constructed, never attached to a
parent sensor). -/
structure VariableState where
  parentValues : Option (List ℚ)
  variableIndex : Nat
  resolution : Nat
  varName : String
  unitName : String
  varCode : String
deriving Repr, DecidableEq

/-- Modelled from the spec: `Variable::value()` reads the parent sensor's
`values[variableIndex]`; on a Variable never attached to a parent it signals
the unbound-usage fault rather than returning a numeric sentinel. -/
def VariableState.value (v : VariableState) : VariableValue :=
  match v.parentValues with
  | none => VariableValue.unboundFault
  | some vals => VariableValue.reading (vals.getD v.variableIndex FAILURE_SENTINEL)

/-- The default-constructed `DecagonCTD_Cond` (DecagonCTD.h lines 249–252):
conductivity variable number, resolution and metadata, with no parent sensor
attached. -/
def mkDecagonCTD_Cond_unbound : VariableState :=
  { parentValues := none, variableIndex := CTD_COND_VAR_NUM,
    resolution := CTD_COND_RESOLUTION, varName := CTD_COND_VAR_NAME,
    unitName := CTD_COND_UNIT_NAME, varCode := CTD_COND_DEFAULT_CODE }

/-- Claim C1: for every set start timestamp, duration and now, `hasElapsed`
is true iff `now - startTimestamp ≥ requiredDuration` under unsigned modular
subtraction; in the no-wraparound case this is exactly `now - t ≥ dur`
(including the boundary `=` case), in the wrapped case (`now < t`) the elapsed
time is `now + (2^32 - t)`, and a zero duration is satisfied immediately. -/
theorem hasElapsed_correct (t dur now : Nat) (ht : t < 2 ^ 32) (hn : now < 2 ^ 32) :
    (hasElapsed (some t) dur now = true ↔ dur ≤ (now + 2 ^ 32 - t) % 2 ^ 32)
    ∧ (t ≤ now → (hasElapsed (some t) dur now = true ↔ dur ≤ now - t))
    ∧ (now < t → (hasElapsed (some t) dur now = true ↔ dur ≤ now + (2 ^ 32 - t)))
    ∧ hasElapsed (some t) 0 now = true := by
  have hmod : t % UINT32_MOD = t := Nat.mod_eq_of_lt ht
  have hmodn : now % UINT32_MOD = now := Nat.mod_eq_of_lt hn
  have hsub : usub32 now t = (now + 2 ^ 32 - t) % 2 ^ 32 := by
    unfold usub32 UINT32_MOD at *
    omega
  refine ⟨?_, ?_, ?_, ?_⟩
  · simp only [hasElapsed, decide_eq_true_eq, hsub]
  · intro hle
    simp only [hasElapsed, decide_eq_true_eq, hsub]
    have : (now + 2 ^ 32 - t) % 2 ^ 32 = now - t := by omega
    rw [this]
  · intro hlt
    simp only [hasElapsed, decide_eq_true_eq, hsub]
    have : (now + 2 ^ 32 - t) % 2 ^ 32 = now + (2 ^ 32 - t) := by omega
    rw [this]
  · simp [hasElapsed]

/-- Concrete instance of `hasElapsed_correct`: with start 1, duration 5,
now 6 the gate is open exactly at the boundary. -/
theorem hasElapsed_correct_witness : hasElapsed (some 1) 5 6 = true :=
  ((hasElapsed_correct 1 5 6 (by norm_num) (by norm_num)).2.1 (by norm_num)).2
    (by norm_num)

/-- `verifyAndAddMeasurementResult` writes only the per-index accumulator
and success-counter arrays; the scalar fields are untouched. -/
theorem verifyAndAdd_scalar_fields (s : RainCounterState) (k : Nat) (v : ℚ) :
    (verifyAndAddMeasurementResult s k v).sensorStatus = s.sensorStatus
    ∧ (verifyAndAddMeasurementResult s k v).millisMeasurementRequested
        = s.millisMeasurementRequested
    ∧ (verifyAndAddMeasurementResult s k v).i2cAddressHex = s.i2cAddressHex
    ∧ (verifyAndAddMeasurementResult s k v).rainPerTip = s.rainPerTip := by
  unfold verifyAndAddMeasurementResult
  split <;> exact ⟨rfl, rfl, rfl, rfl⟩

/-- The status after `addSingleMeasurementResult` is the prior status AND-ed
with `0b10011111`, whatever the I2C response was. -/
theorem addResult_status_eq (resp : Option (Nat × Nat)) (s : RainCounterState) :
    (addSingleMeasurementResult resp s).2.sensorStatus
      = s.sensorStatus &&& 0b10011111 := by
  have key : (addSingleMeasurementResult resp s).2.sensorStatus
      = (verifyAndAddMeasurementResult
          (verifyAndAddMeasurementResult s BUCKET_RAIN_VAR_NUM
            (rainTipsRawReadings resp s.rainPerTip).1)
          BUCKET_TIPS_VAR_NUM
          ((rainTipsRawReadings resp s.rainPerTip).2 : ℚ)).sensorStatus
        &&& 0b10011111 := rfl
  rw [key, (verifyAndAdd_scalar_fields _ _ _).1, (verifyAndAdd_scalar_fields _ _ _).1]

/-- Claim C3: after `addSingleMeasurementResult` returns — from any starting
state, whether or not the raw reading succeeded — the measurement-request
timestamp is unset, status bits 5 and 6 (the measurement-requested flags)
are cleared, and completion is signalled for this round: the call returns
true, and the generic lifecycle step records it by setting
`MeasurementComplete` while clearing `MeasurementRequested` and its
timestamp. -/
theorem addSingleMeasurementResult_clears_request
    (resp : Option (Nat × Nat)) (s : RainCounterState) (raw : ℚ)
    (ls : LifecycleState) :
    (addSingleMeasurementResult resp s).2.millisMeasurementRequested = 0
    ∧ Nat.testBit (addSingleMeasurementResult resp s).2.sensorStatus 5 = false
    ∧ Nat.testBit (addSingleMeasurementResult resp s).2.sensorStatus 6 = false
    ∧ (addSingleMeasurementResult resp s).1 = true
    ∧ (lifecycleAddResult raw ls).measurementRequested = false
    ∧ (lifecycleAddResult raw ls).measurementStartTime = none
    ∧ (lifecycleAddResult raw ls).measurementComplete = true := by
  refine ⟨rfl, ?_, ?_, rfl, rfl, rfl, rfl⟩ <;>
    rw [addResult_status_eq, Nat.testBit_land] <;>
    simp [(by decide : Nat.testBit 159 5 = false),
          (by decide : Nat.testBit 159 6 = false)]

/-- Claim C4: when the I2C `requestFrom` receives zero bytes, the call still
completes and returns true, both output indices' raw readings for the
attempt are the failure sentinel −9999, and consequently neither the value
accumulators nor the success counters change. -/
theorem addSingleMeasurementResult_transport_failure (s : RainCounterState) :
    (addSingleMeasurementResult none s).1 = true
    ∧ (rainTipsRawReadings none s.rainPerTip).1 = FAILURE_SENTINEL
    ∧ ((rainTipsRawReadings none s.rainPerTip).2 : ℚ) = FAILURE_SENTINEL
    ∧ (addSingleMeasurementResult none s).2.sensorValues = s.sensorValues
    ∧ (addSingleMeasurementResult none s).2.numberGoodMeasurementsMade
        = s.numberGoodMeasurementsMade := by
  refine ⟨rfl, rfl, by norm_num [rainTipsRawReadings, FAILURE_SENTINEL], ?_, ?_⟩ <;>
    simp [addSingleMeasurementResult, rainTipsRawReadings,
          verifyAndAddMeasurementResult, FAILURE_SENTINEL]

/-- Claim C9: `addSingleMeasurementResult` touches only status bits 5 and 6,
by AND-ing the status with `0b10011111`: every other bit of the 8-bit status
— bits 0 through 4 and bit 7 — keeps exactly its prior value; and apart from
the per-index accumulators the only other field written is the
measurement-request timestamp, which is set to 0 (address and tip
coefficient are untouched). -/
theorem addSingleMeasurementResult_frame (resp : Option (Nat × Nat))
    (s : RainCounterState) (hstatus : s.sensorStatus < 256) :
    (addSingleMeasurementResult resp s).2.sensorStatus
        = s.sensorStatus &&& 0b10011111
    ∧ (∀ i, i ≠ 5 → i ≠ 6 →
        Nat.testBit (addSingleMeasurementResult resp s).2.sensorStatus i
          = Nat.testBit s.sensorStatus i)
    ∧ (addSingleMeasurementResult resp s).2.millisMeasurementRequested = 0
    ∧ (addSingleMeasurementResult resp s).2.i2cAddressHex = s.i2cAddressHex
    ∧ (addSingleMeasurementResult resp s).2.rainPerTip = s.rainPerTip := by
  have hRain := verifyAndAdd_scalar_fields s BUCKET_RAIN_VAR_NUM
    (rainTipsRawReadings resp s.rainPerTip).1
  have hTips := verifyAndAdd_scalar_fields
    (verifyAndAddMeasurementResult s BUCKET_RAIN_VAR_NUM
      (rainTipsRawReadings resp s.rainPerTip).1)
    BUCKET_TIPS_VAR_NUM ((rainTipsRawReadings resp s.rainPerTip).2 : ℚ)
  refine ⟨addResult_status_eq resp s, ?_, rfl, ?_, ?_⟩
  · intro i h5 h6
    rw [addResult_status_eq resp s, Nat.testBit_land]
    rcases Nat.lt_or_ge i 8 with hi | hi
    · have h159 : Nat.testBit 159 i = true := by
        interval_cases i <;> first | decide | simp_all
      rw [h159, Bool.and_true]
    · have h2i : (256 : ℕ) ≤ 2 ^ i := by
        calc (256 : ℕ) = 2 ^ 8 := by norm_num
          _ ≤ 2 ^ i := Nat.pow_le_pow_right (by norm_num) hi
      have hs : Nat.testBit s.sensorStatus i = false :=
        Nat.testBit_lt_two_pow (lt_of_lt_of_le hstatus h2i)
      have h159 : Nat.testBit 159 i = false :=
        Nat.testBit_lt_two_pow (lt_of_lt_of_le (by norm_num) h2i)
      rw [hs, h159]
      rfl
  · show (verifyAndAddMeasurementResult _ _ _).i2cAddressHex = s.i2cAddressHex
    rw [hTips.2.2.1, hRain.2.2.1]
  · show (verifyAndAddMeasurementResult _ _ _).rainPerTip = s.rainPerTip
    rw [hTips.2.2.2, hRain.2.2.2]

/-- Concrete instance of `addSingleMeasurementResult_frame`: with all eight
status bits set before the call, bit 7 (the error flag) survives the call. -/
theorem addSingleMeasurementResult_frame_witness :
    Nat.testBit (addSingleMeasurementResult none
      ⟨99, 1 / 5, 255, 1234, [0, 0], [0, 0]⟩).2.sensorStatus 7 = true := by
  have h := (addSingleMeasurementResult_frame none
    ⟨99, 1 / 5, 255, 1234, [0, 0], [0, 0]⟩ (by norm_num)).2.1 7
    (by norm_num) (by norm_num)
  rw [h]
  decide

/-- Claim C10: the two received bytes are combined as `Byte2*256 + Byte1`
into a signed 16-bit count; with `Byte2 ≥ 128` that count is negative
(`Byte2*256 + Byte1 − 65536`), so the tips reading is replaced by −9999 and,
whenever `rainPerTip > 0`, the rain reading — computed from the pre-clamp
tips value — is negative and also replaced by −9999: raw counts of 32768 and
above are never reported as valid values. -/
theorem highByte_counts_clamped (byte1 byte2 : Nat) (rainPerTip : ℚ)
    (hb1 : byte1 < 256) (hb2 : byte2 < 256) (hhi : 128 ≤ byte2) :
    ((byte2 <<< 8) ||| byte1) = byte2 * 256 + byte1
    ∧ toInt16 ((byte2 <<< 8) ||| byte1)
        = (byte2 : Int) * 256 + (byte1 : Int) - 65536
    ∧ toInt16 ((byte2 <<< 8) ||| byte1) < 0
    ∧ (rainTipsRawReadings (some (byte1, byte2)) rainPerTip).2 = -9999
    ∧ (0 < rainPerTip →
        (rainTipsRawReadings (some (byte1, byte2)) rainPerTip).1 = -9999) := by
  have key : 2 ^ 8 * byte2 + byte1 = 2 ^ 8 * byte2 ||| byte1 :=
    Nat.mul_add_lt_is_or (by omega) byte2
  have hcomb : ((byte2 <<< 8) ||| byte1) = byte2 * 256 + byte1 := by
    rw [Nat.shiftLeft_eq, Nat.mul_comm byte2 (2 ^ 8), ← key]
  have hval : toInt16 (byte2 * 256 + byte1)
      = (byte2 : Int) * 256 + (byte1 : Int) - 65536 := by
    unfold toInt16
    have hlt : byte2 * 256 + byte1 < 2 ^ 16 := by omega
    rw [Nat.mod_eq_of_lt hlt, if_neg (by omega)]
    push_cast
    omega
  have hneg : toInt16 ((byte2 <<< 8) ||| byte1) < 0 := by
    rw [hcomb, hval]
    omega
  have hsplit : rainTipsRawReadings (some (byte1, byte2)) rainPerTip
      = ((if ((toInt16 ((byte2 <<< 8) ||| byte1) : ℚ) * rainPerTip) < 0
          then (-9999 : ℚ)
          else (toInt16 ((byte2 <<< 8) ||| byte1) : ℚ) * rainPerTip),
         (if toInt16 ((byte2 <<< 8) ||| byte1) < 0 then (-9999 : Int)
          else toInt16 ((byte2 <<< 8) ||| byte1))) := rfl
  refine ⟨hcomb, by rw [hcomb]; exact hval, hneg, ?_, ?_⟩
  · rw [hsplit]
    exact if_pos hneg
  · intro hpos
    rw [hsplit]
    have hcast : ((toInt16 ((byte2 <<< 8) ||| byte1) : Int) : ℚ) < 0 := by
      exact_mod_cast hneg
    exact if_pos (mul_neg_of_neg_of_pos hcast hpos)

/-- Concrete instance of `highByte_counts_clamped`: bytes (0, 128) — a raw
tip count of 32768 — yield the failure sentinel for both tips and rain at
the default tip coefficient 0.2. -/
theorem highByte_counts_clamped_witness :
    (rainTipsRawReadings (some (0, 128)) (1 / 5)).2 = -9999
    ∧ (rainTipsRawReadings (some (0, 128)) (1 / 5)).1 = -9999 := by
  have h := highByte_counts_clamped 0 128 (1 / 5)
    (by norm_num) (by norm_num) (by norm_num)
  exact ⟨h.2.2.2.1, h.2.2.2.2 (by norm_num)⟩

/-- Reading back a lowercase hex digit character recovers the digit. -/
theorem hexCharVal_hexDigitChar (d : Nat) (hd : d < 16) :
    hexCharVal (hexDigitChar d) = d := by
  interval_cases d <;> decide

/-- Every produced hex digit character is a lowercase hexadecimal digit. -/
theorem hexDigitChar_mem (d : Nat) (hd : d < 16) :
    hexDigitChar d ∈ "0123456789abcdef".data := by
  interval_cases d <;> decide

/-- Folding the base-16 reading function over the most-significant-first
character rendering of a digit list recovers the `Nat.ofDigits` value. -/
theorem foldl_hex_digits (ds : List Nat) (acc : Nat)
    (h : ∀ d ∈ ds, hexCharVal (hexDigitChar d) = d) :
    List.foldl (fun a c => a * 16 + hexCharVal c) acc
        ((ds.map hexDigitChar).reverse)
      = acc * 16 ^ ds.length + Nat.ofDigits 16 ds := by
  induction ds generalizing acc with
  | nil => simp
  | cons d tl ih =>
      simp only [List.map_cons, List.reverse_cons, List.foldl_append,
        List.foldl_cons, List.foldl_nil]
      rw [ih acc fun x hx => h x (List.mem_cons_of_mem d hx)]
      rw [h d (List.mem_cons_self d tl)]
      rw [Nat.ofDigits_cons]
      simp only [List.length_cons]
      ring

/-- Parsing the hex string of `n` back as a base-16 numeral gives `n`. -/
theorem hexCharsToNat_stringHex (n : Nat) :
    hexCharsToNat (stringHex n).data = n := by
  unfold stringHex
  split
  · rename_i h0
    subst h0
    decide
  · rename_i h0
    show List.foldl (fun a c => a * 16 + hexCharVal c) 0
        (((Nat.digits 16 n).map hexDigitChar).reverse) = n
    rw [foldl_hex_digits (Nat.digits 16 n) 0 fun d hd =>
      hexCharVal_hexDigitChar d (Nat.digits_lt_base (by norm_num) hd)]
    rw [Nat.ofDigits_digits]
    ring

/-- All characters of the hex string are lowercase hexadecimal digits. -/
theorem stringHex_chars (n : Nat) :
    ∀ c ∈ (stringHex n).data, c ∈ "0123456789abcdef".data := by
  intro c hc
  unfold stringHex at hc
  split at hc
  · rw [show ("0" : String).data = ['0'] from rfl] at hc
    simp only [List.mem_singleton] at hc
    subst hc
    decide
  · have hc' : c ∈ (Nat.digits 16 n).map hexDigitChar := by
      rw [← List.mem_reverse]
      exact hc
    obtain ⟨d, hd, rfl⟩ := List.mem_map.mp hc'
    exact hexDigitChar_mem d (Nat.digits_lt_base (by norm_num) hd)

/-- Claim C8: for every stored I2C address, `getSensorLocation` leaves the
sensor state unchanged and returns `"I2C_0x"` followed by the lowercase
hexadecimal representation of the address: every character after the prefix
is a lowercase hex digit, and reading those characters back as a base-16
numeral recovers the stored address exactly. -/
theorem getSensorLocation_spec (s : RainCounterState) :
    (getSensorLocation s).2 = s
    ∧ (getSensorLocation s).1 = "I2C_0x" ++ stringHex s.i2cAddressHex
    ∧ (∀ c ∈ (stringHex s.i2cAddressHex).data, c ∈ "0123456789abcdef".data)
    ∧ hexCharsToNat (stringHex s.i2cAddressHex).data = s.i2cAddressHex :=
  ⟨rfl, rfl, stringHex_chars s.i2cAddressHex,
    hexCharsToNat_stringHex s.i2cAddressHex⟩

/-- Running the averaging rounds adds the sum of the successful raw readings
to the accumulator and their number to the success counter; failed readings
contribute nothing. -/
theorem runAveragingRounds_acc (raws : List ℚ) (s : LifecycleState) :
    (runAveragingRounds raws s).valueSum
        = s.valueSum + (raws.filter (fun v => v ≠ FAILURE_SENTINEL)).sum
    ∧ (runAveragingRounds raws s).goodCount
        = s.goodCount + (raws.filter (fun v => v ≠ FAILURE_SENTINEL)).length := by
  induction raws generalizing s with
  | nil => simp [runAveragingRounds]
  | cons v tl ih =>
      obtain ⟨ha, hb⟩ := ih (lifecycleAddResult v s)
      simp only [runAveragingRounds, List.foldl_cons] at ha hb ⊢
      by_cases hv : v = FAILURE_SENTINEL
      · refine ⟨?_, ?_⟩
        · rw [ha]
          simp [lifecycleAddResult, hv, List.filter_cons]
        · rw [hb]
          simp [lifecycleAddResult, hv, List.filter_cons]
      · refine ⟨?_, ?_⟩
        · rw [ha]
          simp only [lifecycleAddResult, if_neg hv, List.filter_cons, hv,
            decide_not, ne_eq, decide_eq_true_eq, if_pos, List.sum_cons]
          simp [hv]
          ring
        · rw [hb]
          simp only [lifecycleAddResult, if_neg hv, List.filter_cons, hv,
            decide_not, ne_eq, decide_eq_true_eq, if_pos, List.length_cons]
          simp [hv]
          omega

/-- Claim C2: after the averaging rounds finish, an output index's final
value equals the sum of its successful raw readings divided by the number of
successful readings (not by the averaging target and not by the attempt
count). -/
theorem finalIndexValue_mean (raws : List ℚ)
    (h : (raws.filter (fun v => v ≠ FAILURE_SENTINEL)).length ≠ 0) :
    finalIndexValue raws
      = (raws.filter (fun v => v ≠ FAILURE_SENTINEL)).sum
        / (raws.filter (fun v => v ≠ FAILURE_SENTINEL)).length := by
  obtain ⟨ha, hb⟩ := runAveragingRounds_acc raws initialLifecycleState
  unfold finalIndexValue lifecycleFinal
  rw [ha, hb]
  simp only [initialLifecycleState, zero_add]
  rw [if_neg h]

/-- Concrete instance of `finalIndexValue_mean`: three rounds whose raw
readings are 10 (success), a failure, and 20 (success) average to
(10+20)/2 = 15, not to the value (10+20)/3 that dividing by the attempt
count or the averaging target 3 would give. -/
theorem finalIndexValue_mean_witness :
    finalIndexValue [10, FAILURE_SENTINEL, 20] = 15
    ∧ (15 : ℚ) ≠ (10 + 20) / 3 := by
  refine ⟨?_, by norm_num⟩
  rw [finalIndexValue_mean [10, FAILURE_SENTINEL, 20]
    (by norm_num [List.filter_cons, FAILURE_SENTINEL])]
  norm_num [List.filter_cons, FAILURE_SENTINEL]

/-- Claim C5: at the end of a cycle, an output index whose success count is
zero gets the failure sentinel as its final value and the `Errored` bit is
set, while every sibling index with at least one success reports its
accumulated sum divided by its own success count; finalisation reaches
`powerDown`, which returns the status to `Idle` while keeping all the final
values readable. -/
theorem zero_success_index_sentinel (values : List ℚ) (counts : List Nat)
    (status : Nat) (i : Nat) (hlen : values.length = counts.length)
    (hi : i < counts.length) (hzero : counts.getD i 0 = 0) :
    (averageAndFlag values counts status).1.getD i 0 = FAILURE_SENTINEL
    ∧ Nat.testBit (averageAndFlag values counts status).2 ERROR_BIT = true
    ∧ (∀ j, j < counts.length → counts.getD j 0 ≠ 0 →
        (averageAndFlag values counts status).1.getD j 0
          = values.getD j 0 / (counts.getD j 0 : ℚ))
    ∧ powerDown (averageAndFlag values counts status).1
        (averageAndFlag values counts status).2
      = ((averageAndFlag values counts status).1, 0) := by
  have hzlen : (List.zipWith
      (fun (v : ℚ) (n : Nat) => if n = 0 then FAILURE_SENTINEL else v / (n : ℚ))
      values counts).length
      = counts.length := by
    rw [List.length_zipWith, hlen, Nat.min_self]
  have hget : ∀ j, j < counts.length →
      (averageAndFlag values counts status).1.getD j 0
        = (if counts.getD j 0 = 0 then FAILURE_SENTINEL
           else values.getD j 0 / (counts.getD j 0 : ℚ)) := by
    intro j hj
    have hjv : j < values.length := by omega
    have hjz : j < (List.zipWith
        (fun (v : ℚ) (n : Nat) => if n = 0 then FAILURE_SENTINEL else v / (n : ℚ))
        values counts).length := by
      omega
    show (List.zipWith
        (fun (v : ℚ) (n : Nat) => if n = 0 then FAILURE_SENTINEL else v / (n : ℚ))
        values counts).getD j 0 = _
    rw [List.getD_eq_getElem _ _ hjz, List.getElem_zipWith,
      List.getD_eq_getElem _ _ hjv, List.getD_eq_getElem _ _ hj]
  have hmem : 0 ∈ counts := by
    have := List.getD_eq_getElem counts 0 hi
    rw [hzero] at this
    exact this ▸ List.getElem_mem hi
  refine ⟨?_, ?_, ?_, rfl⟩
  · rw [hget i hi, if_pos hzero]
  · show Nat.testBit (if 0 ∈ counts then status ||| 2 ^ ERROR_BIT else status)
      ERROR_BIT = true
    rw [if_pos hmem, Nat.testBit_lor, Nat.testBit_two_pow_self]
    exact Bool.or_true _
  · intro j hj hnz
    rw [hget j hj, if_neg hnz]

/-- Concrete instance of `zero_success_index_sentinel`: with accumulators
[30, 0] and success counts [2, 0], index 1 yields the sentinel with the
error bit set while its sibling index 0 reports 30/2 = 15. -/
theorem zero_success_index_sentinel_witness :
    (averageAndFlag [30, 0] [2, 0] 0).1.getD 1 0 = FAILURE_SENTINEL
    ∧ (averageAndFlag [30, 0] [2, 0] 0).1.getD 0 0 = 15
    ∧ Nat.testBit (averageAndFlag [30, 0] [2, 0] 0).2 ERROR_BIT = true := by
  have h := zero_success_index_sentinel [30, 0] [2, 0] 0 1
    (by norm_num) (by norm_num) (by norm_num)
  refine ⟨h.1, ?_, h.2.1⟩
  rw [h.2.2.1 0 (by norm_num) (by norm_num)]
  norm_num

/-- Claim C6: with the Decagon CTD timing constants (500 ms warm-up, no
stabilization, 500 ms measurement, one measurement averaged), the scheduler
sequence powerUp → wake at now=0 → warm-up gate open at now=500 →
startSingleMeasurement at now=500 → measurement gate closed at now=999 but
open at now=1000 → collect result reaches the averaging target and yields
the single raw reading as the final value. -/
theorem ctd_end_to_end (raw : ℚ) (hraw : raw ≠ FAILURE_SENTINEL) :
    isWarmedUp ctdConfig 500 (wake 0 (powerUp initialLifecycleState)) = true
    ∧ isMeasurementComplete ctdConfig 999
        (startSingleMeasurement 500 (wake 0 (powerUp initialLifecycleState)))
      = false
    ∧ isMeasurementComplete ctdConfig 1000
        (startSingleMeasurement 500 (wake 0 (powerUp initialLifecycleState)))
      = true
    ∧ (lifecycleAddResult raw
        (startSingleMeasurement 500
          (wake 0 (powerUp initialLifecycleState)))).goodCount
      = ctdConfig.measurementsToAverage
    ∧ lifecycleFinal (lifecycleAddResult raw
        (startSingleMeasurement 500 (wake 0 (powerUp initialLifecycleState))))
      = raw := by
  refine ⟨by decide, by decide, by decide, ?_, ?_⟩
  · simp [lifecycleAddResult, startSingleMeasurement, wake, powerUp,
      initialLifecycleState, hraw, ctdConfig]
  · simp [lifecycleFinal, lifecycleAddResult, startSingleMeasurement, wake,
      powerUp, initialLifecycleState, hraw]

/-- Concrete instance of `ctd_end_to_end`: a raw reading of 7 comes out as
the final result 7. -/
theorem ctd_end_to_end_witness :
    lifecycleFinal (lifecycleAddResult 7
        (startSingleMeasurement 500 (wake 0 (powerUp initialLifecycleState))))
      = 7 :=
  (ctd_end_to_end 7 (by norm_num [FAILURE_SENTINEL])).2.2.2.2

/-- Claim C7: `value()` on a default-constructed `DecagonCTD_Cond` that was
never attached to a parent sensor signals the unbound-usage fault, which is
distinct from every numeric reading — in particular from the −9999 failure
sentinel that a real failed reading would produce. -/
theorem unbound_variable_value_fault :
    mkDecagonCTD_Cond_unbound.value = VariableValue.unboundFault
    ∧ mkDecagonCTD_Cond_unbound.value ≠ VariableValue.reading FAILURE_SENTINEL
    ∧ ∀ q : ℚ, mkDecagonCTD_Cond_unbound.value ≠ VariableValue.reading q := by
  refine ⟨rfl, ?_, ?_⟩
  · intro h
    exact VariableValue.noConfusion h
  · intro q h
    exact VariableValue.noConfusion h

end ModularSensors
